import Mathlib

/-!
Verification of the duty-cycle blink controller from
`src/projects/examples/blink_led/src/main.cpp`.

The C++ class `blink_controller<output_pin_t>` is embedded shallowly:
its four data members become a Lean structure, and the two mutating
methods `update` and `reset` become pure functions returning the new
state together with the list of boolean values passed to the injected
output sink's `set` method during the call (in order).  All `uint32_t`
values are modelled as `Nat`; the C++ arithmetic in `update` never
overflows a `uint32_t` (each branch's result is at most `UINT32_MAX`),
so no reduction modulo `2^32` is needed inside the embedding itself.
-/

/-- `UINT32_MAX`, the largest 32-bit unsigned value. -/
def UINT32_MAX : Nat := 4294967295

/-- The data members of C++ `blink_controller` (the sink reference is
modelled externally, by the emission lists the operations return). -/
structure blink_controller where
  on_duration_ms : Nat
  off_duration_ms : Nat
  last_toggle_time_ms : Nat
  led_on : Bool
deriving DecidableEq, Repr

/-- The constructor `blink_controller(output, on_duration_ms, off_duration_ms)`:
initializes the durations, `last_toggle_time_ms_(0)`, `led_on_(false)`,
and performs no call on the sink (empty emission list). -/
def blink_controller.construct (on_duration_ms off_duration_ms : Nat) :
    blink_controller × List Bool :=
  ({ on_duration_ms := on_duration_ms
     off_duration_ms := off_duration_ms
     last_toggle_time_ms := 0
     led_on := false }, [])

/-- The elapsed-time computation at the top of `update`:
`if (current_time_ms >= last_toggle_time_ms_) elapsed = current_time_ms - last_toggle_time_ms_;
else elapsed = (UINT32_MAX - last_toggle_time_ms_) + current_time_ms + 1;`. -/
def elapsed_since (last_toggle_time_ms current_time_ms : Nat) : Nat :=
  if current_time_ms ≥ last_toggle_time_ms then
    current_time_ms - last_toggle_time_ms
  else
    (UINT32_MAX - last_toggle_time_ms) + current_time_ms + 1

/-- `uint32_t const target_duration = led_on_ ? on_duration_ms_ : off_duration_ms_;` -/
def blink_controller.target_duration (c : blink_controller) : Nat :=
  if c.led_on then c.on_duration_ms else c.off_duration_ms

/-- `update(current_time_ms)`: computes the elapsed time, flips
`led_on_` and records `current_time_ms` as the toggle time when
`elapsed >= target_duration`, then calls `output_.set(led_on_)` once. -/
def blink_controller.update (c : blink_controller) (current_time_ms : Nat) :
    blink_controller × List Bool :=
  let elapsed := elapsed_since c.last_toggle_time_ms current_time_ms
  let c' :=
    if elapsed ≥ c.target_duration then
      { c with led_on := !c.led_on, last_toggle_time_ms := current_time_ms }
    else c
  (c', [c'.led_on])

/-- `reset()`: `last_toggle_time_ms_ = 0; led_on_ = false; output_.set(false);`. -/
def blink_controller.reset (c : blink_controller) : blink_controller × List Bool :=
  ({ c with last_toggle_time_ms := 0, led_on := false }, [false])

/-- A call made on the controller by the driving loop. -/
inductive blink_event where
  | update (current_time_ms : Nat)
  | reset
deriving DecidableEq, Repr

/-- Run a sequence of calls, collecting every value passed to the
sink's `set` in order. -/
def blink_run (c : blink_controller) : List blink_event → blink_controller × List Bool
  | [] => (c, [])
  | e :: es =>
    let step :=
      match e with
      | .update t => c.update t
      | .reset => c.reset
    let rest := blink_run step.1 es
    (rest.1, step.2 ++ rest.2)

/-- The `current_time_ms` arguments of the `update` calls in an event list. -/
def update_times : List blink_event → List Nat
  | [] => []
  | .update t :: es => t :: update_times es
  | .reset :: es => update_times es

/-! ## Basic lemmas about a single `update` call -/

/-- The state after one `update` call, written out explicitly. -/
theorem blink_controller.update_fst (c : blink_controller) (t : Nat) :
    (c.update t).1 =
      if c.target_duration ≤ elapsed_since c.last_toggle_time_ms t then
        { c with led_on := !c.led_on, last_toggle_time_ms := t }
      else c := rfl

/-- C1: in any state and at any sample time, `update` flips `led_on_`
exactly when the elapsed time since `last_toggle_time_ms_` reaches the
duration of the current phase (`on_duration_ms_` when on,
`off_duration_ms_` when off); the call performs at most one flip: on a
flip the new phase is the negation of the old and
`last_toggle_time_ms_` becomes this call's time, and on a non-flip the
state is unchanged. -/
theorem blink_controller.update_flip_iff (c : blink_controller) (t : Nat) :
    (((c.update t).1.led_on ≠ c.led_on) ↔
        elapsed_since c.last_toggle_time_ms t ≥ c.target_duration) ∧
    (c.update t).1.led_on =
      (if elapsed_since c.last_toggle_time_ms t ≥ c.target_duration then
        !c.led_on else c.led_on) ∧
    (c.update t).1.last_toggle_time_ms =
      (if elapsed_since c.last_toggle_time_ms t ≥ c.target_duration then
        t else c.last_toggle_time_ms) := by
  rw [blink_controller.update_fst]
  split <;> simp_all [Bool.not_eq_self]

/-- Witness for C1 at a concrete state and time: with the off phase
current, durations on = 1000 and off = 500, last toggle at 0 and the
sample at 600, the call flips (600 ≥ 500). -/
theorem blink_controller.update_flip_iff_witness :
    ((((blink_controller.mk 1000 500 0 false).update 600).1.led_on ≠
        (blink_controller.mk 1000 500 0 false).led_on) ↔
      elapsed_since (blink_controller.mk 1000 500 0 false).last_toggle_time_ms 600 ≥
        (blink_controller.mk 1000 500 0 false).target_duration) ∧
    ((blink_controller.mk 1000 500 0 false).update 600).1.led_on =
      (if elapsed_since (blink_controller.mk 1000 500 0 false).last_toggle_time_ms 600 ≥
          (blink_controller.mk 1000 500 0 false).target_duration then
        !(blink_controller.mk 1000 500 0 false).led_on
       else (blink_controller.mk 1000 500 0 false).led_on) ∧
    ((blink_controller.mk 1000 500 0 false).update 600).1.last_toggle_time_ms =
      (if elapsed_since (blink_controller.mk 1000 500 0 false).last_toggle_time_ms 600 ≥
          (blink_controller.mk 1000 500 0 false).target_duration then
        600 else (blink_controller.mk 1000 500 0 false).last_toggle_time_ms) :=
  blink_controller.update_flip_iff (blink_controller.mk 1000 500 0 false) 600

/-- C2: `update` measures elapsed time by plain subtraction when the
counter has not wrapped and by `(UINT32_MAX - last) + current + 1`
when it has; in particular a toggle at `UINT32_MAX - 40` followed by a
sample at 70 yields an elapsed time of 111. -/
theorem elapsed_since_spec :
    (∀ last_toggle_time_ms current_time_ms : Nat,
      elapsed_since last_toggle_time_ms current_time_ms =
        if current_time_ms ≥ last_toggle_time_ms then
          current_time_ms - last_toggle_time_ms
        else (UINT32_MAX - last_toggle_time_ms) + current_time_ms + 1) ∧
    elapsed_since (UINT32_MAX - 40) 70 = 111 := by
  refine ⟨fun _ _ => rfl, ?_⟩
  decide

/-- C3: every `update` call passes exactly one value to the sink's
`set`, namely the phase value right after the call's possible
transition. -/
theorem blink_controller.update_output (c : blink_controller) (t : Nat) :
    (c.update t).2 = [(c.update t).1.led_on] := rfl

/-- C6: `reset` clears the phase and the toggle time, keeps the
configured durations, and immediately drives the sink with `false`
exactly once. -/
theorem blink_controller.reset_spec (c : blink_controller) :
    c.reset = ({ c with led_on := false, last_toggle_time_ms := 0 }, [false]) := rfl

/-- C8: construction stores the two durations unchanged, starts in the
inactive phase with `last_toggle_time_ms_ = 0`, and performs no call
on the sink. -/
theorem blink_controller.construct_spec (on_duration_ms off_duration_ms : Nat) :
    blink_controller.construct on_duration_ms off_duration_ms =
      ({ on_duration_ms := on_duration_ms, off_duration_ms := off_duration_ms,
         last_toggle_time_ms := 0, led_on := false }, []) := rfl

/-- C9: the controller is deterministic — two controllers built with
the same durations and driven by the same call sequence reach the same
final state (all four fields) and emit the same sequence of sink
values.  In this functional embedding the whole run is a pure function
of the construction arguments and the event list, so equal inputs give
equal runs. -/
theorem blink_run_deterministic (a_on a_off b_on b_off : Nat)
    (events : List blink_event)
    (h_on : a_on = b_on) (h_off : a_off = b_off) :
    (blink_run (blink_controller.construct a_on a_off).1 events).1 =
      (blink_run (blink_controller.construct b_on b_off).1 events).1 ∧
    (blink_run (blink_controller.construct a_on a_off).1 events).2 =
      (blink_run (blink_controller.construct b_on b_off).1 events).2 := by
  subst h_on h_off
  exact ⟨rfl, rfl⟩

/-- Witness for C9: two controllers with durations 1000/500 driven by
the calls `update 0`, `update 500`, `reset` agree on final state and
emitted values. -/
theorem blink_run_deterministic_witness :
    ((1000 : Nat) = 1000 ∧ (500 : Nat) = 500) ∧
    ((blink_run (blink_controller.construct 1000 500).1
        [.update 0, .update 500, .reset]).1 =
      (blink_run (blink_controller.construct 1000 500).1
        [.update 0, .update 500, .reset]).1 ∧
    (blink_run (blink_controller.construct 1000 500).1
        [.update 0, .update 500, .reset]).2 =
      (blink_run (blink_controller.construct 1000 500).1
        [.update 0, .update 500, .reset]).2) :=
  ⟨⟨rfl, rfl⟩,
    blink_run_deterministic 1000 500 1000 500 [.update 0, .update 500, .reset] rfl rfl⟩

/-- C4: with both durations zero every `update` call flips the phase
(the elapsed time is always ≥ 0), and three consecutive calls on a
freshly constructed controller, at arbitrary sample times, drive the
sink through active, inactive, active. -/
theorem blink_controller.zero_duration_toggles (c : blink_controller) (t t1 t2 t3 : Nat)
    (h_on : c.on_duration_ms = 0) (h_off : c.off_duration_ms = 0) :
    (c.update t).1.led_on = !c.led_on ∧
    (blink_run (blink_controller.construct 0 0).1
        [.update t1, .update t2, .update t3]).2 = [true, false, true] := by
  constructor
  · rw [blink_controller.update_fst]
    have : c.target_duration = 0 := by
      simp [blink_controller.target_duration, h_on, h_off]
    rw [this]
    simp
  · simp [blink_run, blink_controller.construct, blink_controller.update,
      blink_controller.target_duration]

/-- Witness for C4: a zero-duration controller in the on phase flips
off at time 7, and the three-call run at times 3, 9, 9 emits
active, inactive, active. -/
theorem blink_controller.zero_duration_toggles_witness :
    ((blink_controller.mk 0 0 2 true).on_duration_ms = 0 ∧
      (blink_controller.mk 0 0 2 true).off_duration_ms = 0) ∧
    (((blink_controller.mk 0 0 2 true).update 7).1.led_on =
        !(blink_controller.mk 0 0 2 true).led_on ∧
      (blink_run (blink_controller.construct 0 0).1
        [.update 3, .update 9, .update 9]).2 = [true, false, true]) :=
  ⟨⟨rfl, rfl⟩,
    blink_controller.zero_duration_toggles (blink_controller.mk 0 0 2 true) 7 3 9 9 rfl rfl⟩

/-- Counterexample to C5 as stated: with both durations zero, a second
`update` call at the same sample time 5 still flips the phase, so a
transition does occur after the first call at that time. -/
theorem blink_controller.update_same_time_counterexample :
    ((((blink_controller.construct 0 0).1.update 5).1.update 5).1.led_on ≠
      ((blink_controller.construct 0 0).1.update 5).1.led_on) ∧
    ((blink_controller.construct 0 0).1.update 5).1.led_on = true ∧
    (((blink_controller.construct 0 0).1.update 5).1.update 5).1.led_on = false := by
  decide

/-- C5 (amended): when both durations are positive, repeating `update`
with the same sample time leaves the state of the first such call
untouched — no further transition and an unchanged
`last_toggle_time_ms_`. -/
theorem blink_controller.update_same_time_idempotent (c : blink_controller) (t : Nat)
    (h_on : 0 < c.on_duration_ms) (h_off : 0 < c.off_duration_ms) :
    ((c.update t).1.update t).1 = (c.update t).1 := by
  rw [blink_controller.update_fst c t]
  split
  · rw [blink_controller.update_fst]
    have h0 : elapsed_since t t = 0 := by
      simp [elapsed_since]
    rw [h0]
    have : ¬ (blink_controller.mk c.on_duration_ms c.off_duration_ms t
        (!c.led_on)).target_duration ≤ 0 := by
      simp only [blink_controller.target_duration]
      split <;> omega
    simp only [this, if_false]
  · rw [blink_controller.update_fst]
    split
    · omega
    · rfl

/-- Witness for C5 (amended): with durations 1000/500 a second call at
time 600 changes nothing about the state reached by the first call at
600. -/
theorem blink_controller.update_same_time_idempotent_witness :
    (0 < (blink_controller.mk 1000 500 0 false).on_duration_ms ∧
      0 < (blink_controller.mk 1000 500 0 false).off_duration_ms) ∧
    (((blink_controller.mk 1000 500 0 false).update 600).1.update 600).1 =
      ((blink_controller.mk 1000 500 0 false).update 600).1 :=
  ⟨⟨by decide, by decide⟩,
    blink_controller.update_same_time_idempotent (blink_controller.mk 1000 500 0 false)
      600 (by decide) (by decide)⟩

/-- Helper for C7: running any event list from any starting state
leaves `last_toggle_time_ms_` equal to the start state's value, or
zero (written by a `reset`), or one of the `update` sample times. -/
theorem blink_run_last_toggle_from (es : List blink_event) (c : blink_controller) :
    (blink_run c es).1.last_toggle_time_ms = c.last_toggle_time_ms ∨
    (blink_run c es).1.last_toggle_time_ms = 0 ∨
    (blink_run c es).1.last_toggle_time_ms ∈ update_times es := by
  induction es generalizing c with
  | nil => exact Or.inl rfl
  | cons e es ih =>
    cases e with
    | update t =>
      have hrun : (blink_run c (.update t :: es)).1 = (blink_run (c.update t).1 es).1 := by
        simp [blink_run]
      have hstep : (c.update t).1.last_toggle_time_ms = t ∨
          (c.update t).1.last_toggle_time_ms = c.last_toggle_time_ms := by
        rw [blink_controller.update_fst]
        split
        · exact Or.inl rfl
        · exact Or.inr rfl
      rw [hrun]
      rcases ih (c.update t).1 with h | h | h
      · rcases hstep with h' | h'
        · exact Or.inr (Or.inr (by rw [h, h']; exact List.mem_cons_self t (update_times es)))
        · exact Or.inl (h.trans h')
      · exact Or.inr (Or.inl h)
      · exact Or.inr (Or.inr (List.mem_cons_of_mem t h))
    | reset =>
      have hrun : (blink_run c (.reset :: es)).1 = (blink_run c.reset.1 es).1 := by
        simp [blink_run]
      rw [hrun]
      rcases ih c.reset.1 with h | h | h
      · exact Or.inr (Or.inl h)
      · exact Or.inr (Or.inl h)
      · exact Or.inr (Or.inr h)

/-- C7: in every state reachable from construction by `update` and
`reset` calls, `last_toggle_time_ms_` is either zero (the
construction-time default, also restored by `reset`) or a sample time
previously passed to `update`. -/
theorem blink_controller.last_toggle_time_provenance
    (on_duration_ms off_duration_ms : Nat) (events : List blink_event) :
    (blink_run (blink_controller.construct on_duration_ms off_duration_ms).1
        events).1.last_toggle_time_ms = 0 ∨
    (blink_run (blink_controller.construct on_duration_ms off_duration_ms).1
        events).1.last_toggle_time_ms ∈ update_times events := by
  rcases blink_run_last_toggle_from events
      (blink_controller.construct on_duration_ms off_duration_ms).1 with h | h | h
  · exact Or.inl h
  · exact Or.inl h
  · exact Or.inr h

/-- C10: on 32-bit inputs the two-branch elapsed computation is exactly
32-bit wrapping subtraction `(current - last) mod 2^32`. -/
theorem elapsed_since_eq_wrapping_sub (current_time_ms last_toggle_time_ms : Nat)
    (hc : current_time_ms < 2 ^ 32) (hl : last_toggle_time_ms < 2 ^ 32) :
    elapsed_since last_toggle_time_ms current_time_ms =
      (current_time_ms + 2 ^ 32 - last_toggle_time_ms) % 2 ^ 32 := by
  unfold elapsed_since UINT32_MAX
  split <;> omega

/-- Witness for C10 at the wraparound example: with the last toggle at
`UINT32_MAX - 40` and the sample at 70, both branches agree with
wrapping subtraction and give 111. -/
theorem elapsed_since_eq_wrapping_sub_witness :
    ((70 : Nat) < 2 ^ 32 ∧ (4294967255 : Nat) < 2 ^ 32) ∧
    elapsed_since 4294967255 70 = (70 + 2 ^ 32 - 4294967255) % 2 ^ 32 :=
  ⟨⟨by norm_num, by norm_num⟩,
    elapsed_since_eq_wrapping_sub 70 4294967255 (by norm_num) (by norm_num)⟩
